import Mathlib

set_option maxRecDepth 100000

/-!
Verification development for the Smart-Privacy-Policy-Reader backend
(policy ingestion and analysis pipeline).

The JavaScript sources are shallowly embedded: pure computations become
Lean functions over `List Char` strings and a `Json` value type; stateful
code (database, cache) is modelled by explicit state passing; fallible
code returns `Except`/`Option`.  External collaborators (HTTP, the LLM
providers, the headless browser, cheerio's CSS engine) are oracles: their
outcomes are parameters of the embedded functions, and the functions
report which collaborators they invoked where a claim needs that.
-/

namespace SPPR

/-- ASCII whitespace, modelling the JS `\s` class for the ASCII range
(the sources only ever produce ASCII whitespace). -/
def isWs (c : Char) : Bool := c = ' ' || c = '\t' || c = '\n' || c = '\r'

/-- The `\x7b` character (opening curly brace). -/
def lbrace : Char := Char.ofNat 123

/-- The `\x7d` character (closing curly brace). -/
def rbrace : Char := Char.ofNat 125

/-- Whether `pat` occurs as a contiguous sublist of the second argument. -/
def listInfix (pat : List Char) : List Char → Bool
  | [] => pat.isEmpty
  | c :: cs => pat.isPrefixOf (c :: cs) || listInfix pat cs

/-- JS `haystack.includes(needle)`: substring containment. -/
def strContains (s pat : String) : Bool := listInfix pat.data s.data

/-- JS `s.toLowerCase()` restricted to ASCII letters. -/
def jsToLower (s : String) : String := String.mk (s.data.map Char.toLower)

/-- JS `s.trim()`. -/
def jsTrim (s : String) : String :=
  String.mk (((s.data.dropWhile isWs).reverse.dropWhile isWs).reverse)

/-- Number of maximal non-whitespace runs, tracking whether we are inside
a run (`inTok`). -/
def countRuns : Bool → List Char → Nat
  | _, [] => 0
  | inTok, c :: cs =>
    if isWs c then countRuns false cs
    else (if inTok then 0 else 1) + countRuns true cs

/-- JS `s.split(/\s+/).length` for an already-trimmed string `s`:
the number of whitespace-separated tokens, except that the empty string
splits into one (empty) field. -/
def jsWordCount (s : String) : Nat :=
  if s.data.isEmpty then 1 else countRuns false s.data

/-- One pass of `.replace(/re+/g, rep)` for a character class `p`:
each maximal run of `p`-characters becomes the single character `rep`.
`prev` records whether the previous character was in the class. -/
def collapseRuns (p : Char → Bool) (rep : Char) : Bool → List Char → List Char
  | _, [] => []
  | prev, c :: cs =>
    if p c then (if prev then [] else [rep]) ++ collapseRuns p rep true cs
    else c :: collapseRuns p rep false cs

/-- The cleanup applied to extracted text:
`.replace(/\s+/g, ' ').replace(/\n+/g, '\n').trim()`. -/
def jsNormalizeWs (s : String) : String :=
  jsTrim (String.mk (collapseRuns (fun c => c = '\n') '\n' false
    (collapseRuns isWs ' ' false s.data)))

/-! ## JSON values

JS values flowing through the pipeline (parsed provider responses, cache
entries, analysis payloads).  Numbers keep their lexeme as matched by the
JSON grammar; the claims never depend on floating-point evaluation of a
numeric literal. -/

inductive Json where
  | null
  | bool (b : Bool)
  | num (lit : String)
  | str (s : String)
  | arr (elems : List Json)
  | obj (fields : List (String × Json))

instance : Inhabited Json := ⟨.null⟩

def Json.isNull : Json → Bool
  | .null => true
  | _ => false

/-- Property lookup on an object (`undefined` is `none`). -/
def Json.getField : Json → String → Option Json
  | .obj fs, k => (fs.find? (fun p => p.1 == k)).map (·.2)
  | _, _ => none

/-- Insertion with JS object semantics: a repeated key keeps its first
position but takes the last value. -/
def objInsert (fs : List (String × Json)) (k : String) (v : Json) :
    List (String × Json) :=
  if fs.any (fun p => p.1 == k) then
    fs.map (fun p => if p.1 == k then (k, v) else p)
  else fs ++ [(k, v)]

/-- Whether a JSON numeric lexeme denotes zero: its mantissa (the part
before any exponent marker) has no nonzero digit. -/
def numLitIsZero (lit : String) : Bool :=
  ((lit.data.takeWhile (fun c => c ≠ 'e' && c ≠ 'E')).filter
    (fun c => '1' ≤ c && c ≤ '9')).isEmpty

/-- JS truthiness of a value (`if (v)`). -/
def jsTruthy : Json → Bool
  | .null => false
  | .bool b => b
  | .num lit => ! numLitIsZero lit
  | .str s => ! s.data.isEmpty
  | .arr _ => true
  | .obj _ => true

/-- `v.k` on a non-null, non-undefined value: `undefined` (`none`) unless
`v` is an object with field `k`.  (Reading a property of `null` throws in
JS; callers model that case separately.) -/
def jsField (v : Json) (k : String) : Option Json := v.getField k

/-- Optional chaining `o?.k` on a possibly-undefined value. -/
def jsFieldOpt (o : Option Json) (k : String) : Option Json :=
  match o with
  | none => none
  | some .null => none
  | some v => jsField v k

/-- JS `x || d` applied to a possibly-undefined value `x`. -/
def jsOr (o : Option Json) (d : Json) : Json :=
  match o with
  | some v => if jsTruthy v then v else d
  | none => d

/-- A cache lookup result, filtered by the `if (cached)` truthiness test
every call site performs. -/
def jsTruthyOpt (o : Option Json) : Option Json :=
  match o with
  | some v => if jsTruthy v then some v else none
  | none => none

/-! ## JSON.parse

A recursive-descent parser for the ECMA-404 grammar accepted by
`JSON.parse`.  `\uXXXX` escapes are mapped through `Char.ofNat`
(lone surrogates, which Lean cannot represent, collapse to NUL). -/

def hexVal (c : Char) : Option Nat :=
  if '0' ≤ c && c ≤ '9' then some (c.toNat - 48)
  else if 'a' ≤ c && c ≤ 'f' then some (c.toNat - 87)
  else if 'A' ≤ c && c ≤ 'F' then some (c.toNat - 55)
  else none

/-- Single-character string escapes. -/
def escDecode (e : Char) : Option Char :=
  if e = '"' then some '"'
  else if e = '\\' then some '\\'
  else if e = '/' then some '/'
  else if e = 'b' then some (Char.ofNat 8)
  else if e = 'f' then some (Char.ofNat 12)
  else if e = 'n' then some '\n'
  else if e = 'r' then some '\r'
  else if e = 't' then some '\t'
  else none

/-- Parse the body of a string literal (after the opening quote) up to and
including its closing quote.  One unit of fuel is spent per character, so
`fuel = length + 1` always suffices. -/
def parseJStr : Nat → List Char → Option (List Char × List Char)
  | 0, _ => none
  | _, [] => none
  | fuel + 1, c :: cs =>
    if c = '"' then some ([], cs)
    else if c = '\\' then
      match cs with
      | [] => none
      | e :: cs' =>
        match escDecode e with
        | some ch => (parseJStr fuel cs').map (fun p => (ch :: p.1, p.2))
        | none =>
          if e = 'u' then
            match cs' with
            | h1 :: h2 :: h3 :: h4 :: cs'' =>
              match hexVal h1, hexVal h2, hexVal h3, hexVal h4 with
              | some a, some b, some c', some d =>
                (parseJStr fuel cs'').map
                  (fun p => (Char.ofNat (a * 4096 + b * 256 + c' * 16 + d) :: p.1, p.2))
              | _, _, _, _ => none
            | _ => none
          else none
    else if c.toNat < 32 then none
    else (parseJStr fuel cs).map (fun p => (c :: p.1, p.2))

def digitSpan (cs : List Char) : List Char × List Char :=
  (cs.takeWhile Char.isDigit, cs.dropWhile Char.isDigit)

/-- Leading JSON whitespace. -/
def skipWs : List Char → List Char
  | [] => []
  | c :: cs => if isWs c then skipWs cs else c :: cs

/-- Fraction and exponent of a numeric literal, given the already-consumed
sign and integer part. -/
def finishNum (neg intPart rest : List Char) : Option (Json × List Char) :=
  let fracStep : Option (List Char × List Char) :=
    match rest with
    | c :: r =>
      if c = '.' then
        let (ds, r') := digitSpan r
        if ds.isEmpty then none else some ('.' :: ds, r')
      else some ([], rest)
    | [] => some ([], [])
  match fracStep with
  | none => none
  | some (frac, rest2) =>
    let expStep : Option (List Char × List Char) :=
      match rest2 with
      | c :: r =>
        if c = 'e' || c = 'E' then
          let (sgn, r1) :=
            match r with
            | s :: r' => if s = '+' || s = '-' then ([s], r') else ([], r)
            | [] => ([], r)
          let (ds, r2) := digitSpan r1
          if ds.isEmpty then none else some (c :: (sgn ++ ds), r2)
        else some ([], rest2)
      | [] => some ([], [])
    match expStep with
    | none => none
    | some (ex, rest3) =>
      some (.num (String.mk (neg ++ intPart ++ frac ++ ex)), rest3)

/-- Numeric literal: `-? (0 | [1-9][0-9]*) (.[0-9]+)? ([eE][+-]?[0-9]+)?`. -/
def parseNum (cs : List Char) : Option (Json × List Char) :=
  let (neg, cs1) :=
    match cs with
    | c :: r => if c = '-' then (['-'], r) else (([] : List Char), cs)
    | [] => ([], cs)
  match cs1 with
  | [] => none
  | c :: r =>
    if c = '0' then finishNum neg ['0'] r
    else if c.isDigit then
      let (ds, r') := digitSpan (c :: r)
      finishNum neg ds r'
    else none

mutual

/-- Parse one JSON value.  Mutual recursion is fuelled; two units of fuel
per input character suffice. -/
def parseVal : Nat → List Char → Option (Json × List Char)
  | 0, _ => none
  | fuel + 1, cs0 =>
    let cs := skipWs cs0
    match cs with
    | [] => none
    | c :: rest =>
      if c = 'n' then
        match rest with
        | 'u' :: 'l' :: 'l' :: r => some (.null, r)
        | _ => none
      else if c = 't' then
        match rest with
        | 'r' :: 'u' :: 'e' :: r => some (.bool true, r)
        | _ => none
      else if c = 'f' then
        match rest with
        | 'a' :: 'l' :: 's' :: 'e' :: r => some (.bool false, r)
        | _ => none
      else if c = '"' then
        (parseJStr (rest.length + 1) rest).map (fun p => (.str (String.mk p.1), p.2))
      else if c = '[' then
        match skipWs rest with
        | ']' :: r => some (.arr [], r)
        | r => parseArrElems fuel r []
      else if c = lbrace then
        match skipWs rest with
        | c2 :: r2 =>
          if c2 = rbrace then some (.obj [], r2) else parseObjElems fuel (c2 :: r2) []
        | [] => none
      else if c = '-' || c.isDigit then parseNum cs
      else none

/-- Elements of an array after `[`, accumulating parsed values. -/
def parseArrElems : Nat → List Char → List Json → Option (Json × List Char)
  | 0, _, _ => none
  | fuel + 1, cs, acc =>
    match parseVal fuel cs with
    | none => none
    | some (v, r) =>
      match skipWs r with
      | c :: r' =>
        if c = ',' then parseArrElems fuel (skipWs r') (acc ++ [v])
        else if c = ']' then some (.arr (acc ++ [v]), r')
        else none
      | [] => none

/-- Members of an object after the opening brace. -/
def parseObjElems : Nat → List Char → List (String × Json) →
    Option (Json × List Char)
  | 0, _, _ => none
  | fuel + 1, cs, acc =>
    match cs with
    | [] => none
    | c :: r =>
      if c = '"' then
        match parseJStr (r.length + 1) r with
        | none => none
        | some (k, r1) =>
          match skipWs r1 with
          | ':' :: r2 =>
            match parseVal fuel (skipWs r2) with
            | none => none
            | some (v, r3) =>
              let acc' := objInsert acc (String.mk k) v
              match skipWs r3 with
              | c2 :: r4 =>
                if c2 = ',' then parseObjElems fuel (skipWs r4) acc'
                else if c2 = rbrace then some (.obj acc', r4)
                else none
              | [] => none
          | _ => none
      else none

end

/-- `JSON.parse(s)`: parse one value and require only whitespace after it;
`none` models the thrown `SyntaxError`. -/
def jsonParse (s : String) : Option Json :=
  match parseVal (2 * s.data.length + 4) s.data with
  | some (v, rest) => if (skipWs rest).isEmpty then some v else none
  | none => none

/-! ## JSON.stringify -/

def hexDigit (n : Nat) : Char :=
  if n < 10 then Char.ofNat (48 + n) else Char.ofNat (87 + n)

def escapeJChar (c : Char) : List Char :=
  if c = '"' then ['\\', '"']
  else if c = '\\' then ['\\', '\\']
  else if c = Char.ofNat 8 then ['\\', 'b']
  else if c = Char.ofNat 12 then ['\\', 'f']
  else if c = '\n' then ['\\', 'n']
  else if c = '\r' then ['\\', 'r']
  else if c = '\t' then ['\\', 't']
  else if c.toNat < 32 then
    ['\\', 'u', '0', '0', hexDigit (c.toNat / 16), hexDigit (c.toNat % 16)]
  else [c]

def quoteJStr (s : String) : String :=
  String.mk ('"' :: (s.data.map escapeJChar).flatten ++ ['"'])

def sLbrace : String := String.mk [lbrace]

def sRbrace : String := String.mk [rbrace]

mutual

/-- `JSON.stringify` without indentation.  A numeric value prints its
lexeme (the sources never re-serialize a number whose lexeme differs from
its JS decimal printing). -/
def jsonStringify : Json → String
  | .null => "null"
  | .bool true => "true"
  | .bool false => "false"
  | .num l => l
  | .str s => quoteJStr s
  | .arr es => "[" ++ stringifyElems es ++ "]"
  | .obj fs => sLbrace ++ stringifyFields fs ++ sRbrace

def stringifyElems : List Json → String
  | [] => ""
  | [e] => jsonStringify e
  | e :: es => jsonStringify e ++ "," ++ stringifyElems es

def stringifyFields : List (String × Json) → String
  | [] => ""
  | [p] => quoteJStr p.1 ++ ":" ++ jsonStringify p.2
  | p :: fs => quoteJStr p.1 ++ ":" ++ jsonStringify p.2 ++ "," ++ stringifyFields fs

end

/-! ## AI response parsing (src/utils/aiAnalyzer.js `parseAIResponse`)

`parseAIResponse` first tries `JSON.parse` on the whole response; on
failure it applies the greedy regex `/\x7b[\s\S]*\x7d/` — which matches
from the first opening brace to the last closing brace — and tries
`JSON.parse` on the match; if both fail it returns a fixed fallback
object. -/

/-- The match of `text.match(/\x7b[\s\S]*\x7d/)`: the substring from the
first `\x7b` to the last `\x7d`, when the latter comes after the former. -/
def extractBraces (s : String) : Option String :=
  let cs := s.data
  match cs.findIdx? (fun c => c = lbrace), cs.reverse.findIdx? (fun c => c = rbrace) with
  | some i, some jr =>
    let j := cs.length - 1 - jr
    if i < j then some (String.mk ((cs.drop i).take (j - i + 1))) else none
  | _, _ => none

/-- The fixed fallback structure returned when the provider response
resists both parse attempts. -/
def fallbackAnalysis : Json :=
  .obj [
    ("summary", .arr [.str "This privacy policy could not be automatically analyzed."]),
    ("dataCollection", .obj [("Unknown", .arr [.str "Data types could not be determined"])]),
    ("dataSharing", .obj [("Unknown", .str "Sharing practices could not be determined")]),
    ("retention", .str "Retention policy could not be determined"),
    ("userRights", .arr [.str "Rights could not be determined"]),
    ("score", .obj [("value", .num "0"),
      ("explanation", .str "Analysis failed, manual review required")]),
    ("redFlags", .arr [.str "Analysis could not complete successfully"]),
    ("compliance", .obj [("General", .str "Assessment failed, manual review required")])]

/-- `AIAnalyzer.parseAIResponse(text)`. -/
def parseAIResponse (text : String) : Json :=
  match jsonParse text with
  | some v => v
  | none =>
    match extractBraces text with
    | some sub =>
      match jsonParse sub with
      | some v => v
      | none => fallbackAnalysis
    | none => fallbackAnalysis

/-! ## Cache manager (src/utils/cacheManager.js)

State of the `CacheManager` singleton: which backend is active
(`redisEnabled`), whether the Redis connection is healthy (`redisOk`;
when it is not, every Redis command rejects and the `try/catch` wrappers
swallow the rejection), and the two stores.  Entries carry their absolute
expiry time in milliseconds. -/

structure CacheState where
  redisEnabled : Bool
  redisOk : Bool
  redisStore : List (String × String × Nat)
  memStore : List (String × Json × Nat)

def storeReplace {α : Type} (store : List (String × α × Nat)) (k : String) (v : α)
    (e : Nat) : List (String × α × Nat) :=
  store.filter (fun p => p.1 ≠ k) ++ [(k, v, e)]

def storeLookup {α : Type} (store : List (String × α × Nat)) (now : Nat) (k : String) :
    Option α :=
  match store.find? (fun p => p.1 == k) with
  | some (_, v, e) => if now < e then some v else none
  | none => none

/-- `CacheManager.get(key)`.  With Redis enabled, a raw string hit is
`JSON.parse`d (falling back to the raw string), a falsy (empty) value is
reported as a miss, and a backend error yields `null`; otherwise the
in-memory store is read. -/
def cmGet (st : CacheState) (now : Nat) (key : String) : Option Json :=
  if st.redisEnabled then
    if st.redisOk then
      match storeLookup st.redisStore now ("cache:" ++ key) with
      | some s =>
        if s.data.isEmpty then none
        else
          match jsonParse s with
          | some v => some v
          | none => some (.str s)
      | none => none
    else none
  else storeLookup st.memStore now key

/-- `CacheManager.set(key, value, ttlSeconds)`.  Strings are stored
verbatim in Redis, other values via `JSON.stringify`; a backend error is
swallowed and reported as `false`. -/
def cmSet (st : CacheState) (now : Nat) (key : String) (v : Json) (ttl : Nat) :
    Bool × CacheState :=
  if st.redisEnabled then
    if st.redisOk then
      let s := match v with | .str s => s | _ => jsonStringify v
      (true, { st with redisStore := storeReplace st.redisStore ("cache:" ++ key) s (now + ttl * 1000) })
    else (false, st)
  else (true, { st with memStore := storeReplace st.memStore key v (now + ttl * 1000) })

/-! ## AI analyzer (src/utils/aiAnalyzer.js, both revisions)

The provider calls themselves are oracles: `Except String String` is the
outcome of one call (raw response text or rejection message). -/

/-- Extracted policy data handed to the analyzer and the store. -/
structure PolicyData where
  url : String
  domain : String
  title : String
  text : String

def analysisCacheKey (url : String) : String := "policy_analysis_" ++ url

def sevenDaysSeconds : Nat := 60 * 60 * 24 * 7

/-- `AIAnalyzer.generateMockAnalysis(policyData)` of the single-provider
revision: the fixed synthetic analysis, personalised with the domain. -/
def generateMockAnalysis (pd : PolicyData) : Json :=
  let domain := if pd.domain.data.isEmpty then "the website" else pd.domain
  .obj [
    ("summary", .arr [
      .str ("This is a privacy policy for " ++ domain),
      .str "The policy explains how user data is collected and used",
      .str "Personal information may be shared with third parties",
      .str "Users have certain rights regarding their data",
      .str "The company uses cookies to track user behavior"]),
    ("dataCollection", .obj [
      ("Personal Information", .arr [.str "Name", .str "Email", .str "Address", .str "Phone Number"]),
      ("Device Information", .arr [.str "IP Address", .str "Browser type", .str "Device ID", .str "Operating System"]),
      ("Usage Data", .arr [.str "Pages visited", .str "Time spent", .str "Features used", .str "Interactions"])]),
    ("dataSharing", .obj [
      ("Service Providers", .str "To help operate our business"),
      ("Marketing Partners", .str "For advertising purposes"),
      ("Affiliates", .str "To provide joint content and services"),
      ("Legal Authorities", .str "When required by law")]),
    ("retention", .str "Data is typically retained as long as necessary for business purposes or as required by law"),
    ("userRights", .arr [.str "Access your data", .str "Correct inaccuracies", .str "Delete your information", .str "Opt-out of marketing", .str "Data portability"]),
    ("score", .obj [("value", .num "65"),
      ("explanation", .str "Average privacy practices with some concerns around data sharing and retention periods")]),
    ("redFlags", .arr [
      .str "Shares data with third parties for marketing",
      .str "Indefinite data retention policy",
      .str "Collects more data than might be necessary",
      .str "Vague language around data usage"]),
    ("compliance", .obj [
      ("GDPR", .str "Partial compliance with some missing elements"),
      ("CCPA", .str "Appears to address main requirements"),
      ("PIPEDA", .str "Limited compliance measures")])]

/-- `analyzePrivacyPolicy` of the single-provider (Gemini-only) revision
of src/utils/aiAnalyzer.js.  The `try` body checks configuration, the
analysis cache, and the provider; the `catch` returns the mock analysis
when the error message mentions a 429 rate limit, or (for other errors)
when `NODE_ENV` is `development`, and rethrows otherwise. -/
def analyzeGemini (hasGemini : Bool) (env : String) (st : CacheState) (now : Nat)
    (pd : PolicyData) (gemini : Except String String) :
    Except String (Json × CacheState) :=
  let attempt : Except String (Json × CacheState) :=
    if !hasGemini then .error "Gemini API key not configured"
    else
      match jsTruthyOpt (cmGet st now (analysisCacheKey pd.url)) with
      | some cached => .ok (cached, st)
      | none =>
        match gemini with
        | .error m => .error ("Gemini API error: " ++ m)
        | .ok t =>
          let r := parseAIResponse t
          .ok (r, (cmSet st now (analysisCacheKey pd.url) r sevenDaysSeconds).2)
  match attempt with
  | .ok x => .ok x
  | .error e =>
    if strContains e "429 Too Many Requests" then .ok (generateMockAnalysis pd, st)
    else if env = "development" then .ok (generateMockAnalysis pd, st)
    else .error e

/-- The two configured providers of the multi-provider revision. -/
inductive Provider where
  | gemini
  | openai
deriving DecidableEq

/-- `analyzeWithProvider`: the outcome of one provider call, with the
error message wrapped the way `analyzeWithGemini`/`analyzeWithOpenAI`
wrap it. -/
def providerRun (p : Provider) (gemini openai : Except String String) : Except String Json :=
  match p with
  | .gemini =>
    match gemini with
    | .error m => .error ("Gemini API error: " ++ m)
    | .ok t => .ok (parseAIResponse t)
  | .openai =>
    match openai with
    | .error m => .error ("OpenAI API error: " ++ m)
    | .ok t => .ok (parseAIResponse t)

/-- `analyzePrivacyPolicy` of the multi-provider revision of
src/utils/aiAnalyzer.js: cache check, provider preference + one
fallback hop, caching of the successful result.  There is no mock path:
failures propagate. -/
def analyzeMulti (hasGemini hasOpenAI : Bool) (preferred : String) (st : CacheState)
    (now : Nat) (pd : PolicyData) (gemini openai : Except String String) :
    Except String (Json × CacheState) :=
  match jsTruthyOpt (cmGet st now (analysisCacheKey pd.url)) with
  | some cached => .ok (cached, st)
  | none =>
    let selection : Except String (Provider × Option Provider) :=
      if (preferred == "openai") && hasOpenAI then
        .ok (.openai, if hasGemini then some .gemini else none)
      else if hasGemini then
        .ok (.gemini, if hasOpenAI then some .openai else none)
      else if hasOpenAI then .ok (.openai, none)
      else .error "No AI providers available for analysis"
    match selection with
    | .error e => .error e
    | .ok (primary, fallback) =>
      match providerRun primary gemini openai with
      | .ok r => .ok (r, (cmSet st now (analysisCacheKey pd.url) r sevenDaysSeconds).2)
      | .error e1 =>
        match fallback with
        | some f =>
          match providerRun f gemini openai with
          | .ok r => .ok (r, (cmSet st now (analysisCacheKey pd.url) r sevenDaysSeconds).2)
          | .error e2 => .error e2
        | none => .error e1

/-! ## Policy extractor (src/utils/policyExtractor.js, Puppeteer revision)

Cheerio is an external collaborator: an HTML document is abstracted by
the texts its CSS queries return.  `PageDoc.select sel` is the list of
`$(el).text()` values for the elements matching `sel` after the
non-content removal pass, and `PageDoc.bodyText` is `$('body').text()`. -/

/-- The suffix of `cs` after the first occurrence of `pat` (`pat` nonempty). -/
def afterInfix (pat : List Char) : List Char → Option (List Char)
  | [] => none
  | c :: cs =>
    if pat.isPrefixOf (c :: cs) then some ((c :: cs).drop pat.length)
    else afterInfix pat cs

/-- `extractDomain(urlString)`: models `new URL(urlString).hostname` for
the ordinary absolute URLs the pipeline handles (`scheme://host/...`) —
the authority up to the first `/`, `:`, `?` or `#`, lowercased; `none`
models the caught `TypeError` (invalid URL → `null`). -/
def extractDomain (u : String) : Option String :=
  match afterInfix "://".data u.data with
  | none => none
  | some rest =>
    let host := rest.takeWhile (fun c => c ≠ '/' && c ≠ ':' && c ≠ '?' && c ≠ '#')
    if host.isEmpty then none else some (jsToLower (String.mk host))

/-- The static list of domains routed directly to Puppeteer. -/
def complexSites : List String :=
  ["facebook.com", "instagram.com", "twitter.com", "x.com", "apple.com",
   "microsoft.com", "linkedin.com", "amazon.com", "netflix.com", "tiktok.com",
   "snapchat.com"]

def htmlCacheKey (url : String) : String := "policy_html_" ++ url

/-- The two fetch strategies. -/
inductive Strategy where
  | axios
  | puppeteer
deriving DecidableEq

/-- `complexSites.some(site => domain?.includes(site))`. -/
def needsPuppeteer (url : String) : Bool :=
  complexSites.any fun site =>
    match extractDomain url with
    | some d => strContains d site
    | none => false

/-- `fetchPolicyContent(policyUrl)`.  The outcomes of the two strategies
are oracles; the returned list records which strategies were invoked, in
order.  A cached truthy value returns immediately with no strategy
invocation; a complex-site domain goes straight to Puppeteer; otherwise
Axios is tried first with exactly one Puppeteer fallback; every fetched
HTML is offered to the cache with a 24-hour TTL before being returned. -/
def fetchPolicyContent (st : CacheState) (now : Nat) (url : String)
    (axiosR puppeteerR : Except String String) :
    Except String Json × List Strategy × CacheState :=
  match jsTruthyOpt (cmGet st now (htmlCacheKey url)) with
  | some cached => (.ok cached, [], st)
  | none =>
    let wrap (m : String) : String := "Failed to fetch policy from " ++ url ++ ": " ++ m
    if needsPuppeteer url then
      match puppeteerR with
      | .error m => (.error (wrap m), [.puppeteer], st)
      | .ok h =>
        (.ok (.str h), [.puppeteer], (cmSet st now (htmlCacheKey url) (.str h) 86400).2)
    else
      match axiosR with
      | .ok h => (.ok (.str h), [.axios], (cmSet st now (htmlCacheKey url) (.str h) 86400).2)
      | .error _ =>
        match puppeteerR with
        | .ok h =>
          (.ok (.str h), [.axios, .puppeteer], (cmSet st now (htmlCacheKey url) (.str h) 86400).2)
        | .error m => (.error (wrap m), [.axios, .puppeteer], st)

/-! ### Classifier (`isProbablyPrivacyPolicy`) -/

/-- The cheerio views of a raw HTML document that the classifier reads:
`$('title').text()`, `$('h1').text()` and `$('body').text()`. -/
structure HtmlView where
  titleText : String
  h1Text : String
  bodyText : String

def urlIndicators : List String :=
  ["privacy", "datapolicy", "data-policy", "privacypolicy", "privacy-policy",
   "datenschutz", "confidentialite", "privacidad", "privacy-notice",
   "privacy-statement", "gdpr"]

def titleIndicators : List String :=
  ["privacy", "policy", "data", "personal information", "cookie", "gdpr"]

def contentKeywords : List String :=
  ["we collect", "information we collect", "personal data", "your rights",
   "data subject", "opt out", "third parties", "data protection",
   "controller", "processor", "legal basis"]

/-- `isProbablyPrivacyPolicy(url, html)`: URL keyword match first
(authoritative); else, when HTML is supplied, a title/h1 keyword match,
else at least 4 of the fixed body phrases; no HTML and no URL match is
`false`. -/
def isProbablyPrivacyPolicy (url : String) (html : Option HtmlView) : Bool :=
  let urlLower := jsToLower url
  if urlIndicators.any (fun i => strContains urlLower i) then true
  else
    match html with
    | some v =>
      let titleText := jsToLower v.titleText
      let h1Text := jsToLower v.h1Text
      if titleIndicators.any (fun i => strContains titleText i || strContains h1Text i) then
        true
      else
        let bodyText := jsToLower v.bodyText
        decide (4 ≤ (contentKeywords.filter (fun k => strContains bodyText k)).length)
    | none => false

/-! ### Content extraction (`extractTextFromHtml`) -/

/-- Abstraction of a loaded cheerio document after the removal pass:
per-selector element texts and the body text. -/
structure PageDoc where
  select : String → List String
  bodyText : String

def commonSelectors : List String :=
  ["[data-testid=\"privacy-policy\"]", "#privacy-policy", ".privacy-policy",
   ".privacy", "#privacy", ".policy-content", ".policy-text", ".legal-content",
   ".terms-content",
   "main", "article", "[role=\"main\"]", ".main-content", ".content", "#content",
   ".container", ".page-content", ".entry-content",
   ".row", ".column", ".col", ".section"]

def privacyTerms : List String :=
  ["privacy", "data", "information", "collect", "personal", "share",
   "cookie", "third party", "gdpr", "right", "access", "delete",
   "retention", "security", "protection", "consent", "process"]

/-- How many of the fixed privacy terms occur in the lowercased text. -/
def privacyTermsFound (content : String) : Nat :=
  (privacyTerms.filter (fun t => strContains (jsToLower content) t)).length

/-- The relevance score of a (trimmed) candidate text, scaled by 17 to
stay in `ℕ`: the source computes `wordCount * (1 + termsFound / 17 * 2)`
in JS doubles, which equals `wordCount * (17 + 2 * termsFound) / 17`
exactly; every comparison the source makes between scores or against the
thresholds 1000/500 is preserved by scaling both sides by 17 (the
doubles involved are small integers over 17, represented exactly).
`c7_extraction_pipeline` relates this back to the unscaled formula. -/
def elemScore17 (content : String) : Nat :=
  jsWordCount content * (17 + 2 * privacyTermsFound content)

/-- One `elements.each` step: skip candidates under 50 words, keep the
best score seen (scores scaled by 17). -/
def scanStep (best : String × Nat) (elemText : String) : String × Nat :=
  let content := jsTrim elemText
  let wordCount := jsWordCount content
  if wordCount < 50 then best
  else
    let score := elemScore17 content
    if best.2 < score then (content, score) else best

def scanElems (best : String × Nat) (elems : List String) : String × Nat :=
  elems.foldl scanStep best

/-- The selector loop: scan each selector's matches in order, stopping
before the next selector once the best score exceeds 1000 (scaled:
`17000 < score17`). -/
def scanSelectors (doc : PageDoc) : List String → String × Nat → String × Nat
  | [], best => best
  | sel :: rest, best =>
    let best' := scanElems best (doc.select sel)
    if 17000 < best'.2 then best' else scanSelectors doc rest best'

/-- The tier-1 paragraph concatenation: every `p` text longer than 20
characters, each followed by a blank line. -/
def paragraphConcat (doc : PageDoc) : String :=
  (doc.select "p").foldl
    (fun acc p =>
      let t := jsTrim p
      if 20 < t.length then acc ++ t ++ "\n\n" else acc)
    ""

/-- `extractTextFromHtml(html, url)` (Puppeteer revision): selector scan,
then — when the best score is under 500 — the paragraph concatenation if
it is longer than the best candidate, then the body text if the chosen
content is still under 500 characters, finally whitespace-normalized. -/
def extractTextFromHtml (doc : PageDoc) : String :=
  let best := scanSelectors doc commonSelectors ("", 0)
  let afterTier1 :=
    if best.2 < 8500 then
      let allParagraphsText := paragraphConcat doc
      if best.1.length < allParagraphsText.length then allParagraphsText else best.1
    else best.1
  let afterTier2 := if afterTier1.length < 500 then doc.bodyText else afterTier1
  jsNormalizeWs afterTier2

/-- The extraction as worded by the claim (and §4.2 of the spec): when no
candidate reaches 500 the paragraph concatenation is used *instead*
(unconditionally), and the body text replaces a chosen content still
under 500 characters.  Stated only to be compared with
`extractTextFromHtml`. -/
def extractTextClaimed (doc : PageDoc) : String :=
  let best := scanSelectors doc commonSelectors ("", 0)
  let afterTier1 := if best.2 < 8500 then paragraphConcat doc else best.1
  let afterTier2 := if afterTier1.length < 500 then doc.bodyText else afterTier1
  jsNormalizeWs afterTier2

/-! ## Policy store (src/models/policyModel.js, current revision)

The `policies` table keeps one row per record *version* (multiple rows
may share a URL); `policy_history` is the table of the database schema,
which this revision of the model never writes.  `NOW()` is the `now`
parameter (milliseconds); fresh `SERIAL` ids come from `nextId`. -/

structure PolicyRow where
  id : Nat
  url : String
  domain : String
  title : String
  text : String
  summary : String
  dataCollection : String
  dataSharing : String
  retention : Json
  userRights : String
  score : Json
  scoreExplanation : Json
  redFlags : String
  compliance : String
  createdAt : Nat
  lastChecked : Nat

/-- A row of the `policy_history` table of the SQL schema. -/
structure HistoryRow where
  policyId : Nat
  snapshotDate : Nat
  rawText : String
  summary : String
  score : Json
  changesDetected : Bool

structure DB where
  policies : List PolicyRow
  policyHistory : List HistoryRow
  analyticsEvents : List (String × Json)
  nextId : Nat

/-- `ORDER BY created_at DESC LIMIT 1` over a filtered row set.  Among
rows with equal `created_at` the physically later row is preferred (the
SQL order of ties is unspecified; within one run ties only arise for the
row just written). -/
def pickStep (acc : Option PolicyRow) (r : PolicyRow) : Option PolicyRow :=
  match acc with
  | none => some r
  | some b => if b.createdAt ≤ r.createdAt then some r else some b

def pickLatestAux : Option PolicyRow → List PolicyRow → Option PolicyRow
  | acc, [] => acc
  | acc, r :: rs => pickLatestAux (pickStep acc r) rs

def pickLatest (rows : List PolicyRow) : Option PolicyRow :=
  pickLatestAux none rows

/-- `policyModel.getPolicyByUrl(url)`. -/
def getPolicyByUrl (db : DB) (url : String) : Option PolicyRow :=
  pickLatest (db.policies.filter (fun r => r.url == url))

/-- `policyModel.getPolicyById(id)`. -/
def getPolicyById (db : DB) (id : Nat) : Option PolicyRow :=
  db.policies.find? (fun r => r.id == id)

/-- The analysis column values `savePolicy` derives from
`analysisResult` before branching (`x || default`, then
`JSON.stringify` for the JSONB columns). -/
structure AnalysisCols where
  summaryJson : String
  dataCollectionJson : String
  dataSharingJson : String
  retention : Json
  userRightsJson : String
  score : Json
  scoreExplanation : Json
  redFlagsJson : String
  complianceJson : String

def analysisCols (ar : Json) : AnalysisCols :=
  { summaryJson := jsonStringify (jsOr (jsField ar "summary") (.arr []))
    dataCollectionJson := jsonStringify (jsOr (jsField ar "dataCollection") (.obj []))
    dataSharingJson := jsonStringify (jsOr (jsField ar "dataSharing") (.obj []))
    retention := jsOr (jsField ar "retention") (.str "")
    userRightsJson := jsonStringify (jsOr (jsField ar "userRights") (.arr []))
    score := jsOr (jsFieldOpt (jsField ar "score") "value") (.num "0")
    scoreExplanation := jsOr (jsFieldOpt (jsField ar "score") "explanation") (.str "")
    redFlagsJson := jsonStringify (jsOr (jsField ar "redFlags") (.arr []))
    complianceJson := jsonStringify (jsOr (jsField ar "compliance") (.obj [])) }

/-- The row inserted by `savePolicy` (both the brand-new-URL insert and
the new-version insert use the same column list, with
`created_at = last_checked = NOW()`). -/
def newPolicyRow (id now : Nat) (pd : PolicyData) (cols : AnalysisCols) : PolicyRow :=
  { id := id, url := pd.url, domain := pd.domain, title := pd.title, text := pd.text
    summary := cols.summaryJson, dataCollection := cols.dataCollectionJson
    dataSharing := cols.dataSharingJson, retention := cols.retention
    userRights := cols.userRightsJson, score := cols.score
    scoreExplanation := cols.scoreExplanation, redFlags := cols.redFlagsJson
    compliance := cols.complianceJson, createdAt := now, lastChecked := now }

/-- `policyModel.savePolicy(policyData, analysisResult)`.
`analysisResult = null` makes the first property read throw (modelled by
`.error ()`); otherwise: no record for the URL ⇒ insert (`isNew = true`);
record found with different `text` ⇒ insert a new version row
(`isNew = true`); otherwise ⇒ bump only `last_checked`
(`isNew = false`).  `policy_history` is never touched. -/
def savePolicy (db : DB) (now : Nat) (pd : PolicyData) (ar : Json) :
    Except Unit ((Nat × Bool) × DB) :=
  if ar.isNull then .error ()
  else
    let cols := analysisCols ar
    match getPolicyByUrl db pd.url with
    | none =>
      let row := newPolicyRow db.nextId now pd cols
      let ev : String × Json :=
        ("policy_created", .obj [("policyId", .num (toString db.nextId)),
          ("url", .str pd.url), ("domain", .str pd.domain), ("score", cols.score)])
      .ok ((db.nextId, true),
        { db with policies := db.policies ++ [row]
                  analyticsEvents := db.analyticsEvents ++ [ev]
                  nextId := db.nextId + 1 })
    | some existing =>
      if existing.text ≠ pd.text then
        let row := newPolicyRow db.nextId now pd cols
        let ev : String × Json :=
          ("policy_updated", .obj [("policyId", .num (toString db.nextId)),
            ("url", .str pd.url), ("domain", .str pd.domain), ("score", cols.score),
            ("previousScore", existing.score), ("previousId", .num (toString existing.id))])
        .ok ((db.nextId, true),
          { db with policies := db.policies ++ [row]
                    analyticsEvents := db.analyticsEvents ++ [ev]
                    nextId := db.nextId + 1 })
      else
        .ok ((existing.id, false),
          { db with policies := db.policies.map fun r =>
              if r.id = existing.id then { r with lastChecked := now } else r })

/-! ## Controller (src/controllers/policyController.js `analyzePolicy`)

The fetch/extract step (`processPrivacyPolicy`) and the analyzer call are
oracles; the trace records which of them the controller invoked. -/

/-- The collaborators the controller may invoke. -/
inductive Stage where
  | fetchStage
  | analyzeStage
deriving DecidableEq

/-- The request body: the controller destructures only `url`; `options`
is carried by clients (the extension sends `\x7b url, options \x7d`) but
never read. -/
structure AnalyzeRequest where
  url : Option String
  options : Json

inductive AnalyzeResponse where
  | badRequest
  | cachedPolicy (policy : PolicyRow)
  | freshPolicy (policy : Option PolicyRow) (isNew : Bool)
  | failure (message : String)

/-- Seven days in milliseconds: `oneWeekAgo.setDate(getDate() - 7)`
modelled as an exact week (UTC, no DST). -/
def oneWeekMs : Nat := 604800000

/-- The post-cache part of the controller: fetch/extract, length check,
analysis, persistence. -/
def runPipeline (url : String) (db : DB) (now : Nat)
    (processResult : Except String PolicyData) (analysisResult : Except String Json) :
    AnalyzeResponse × DB × List Stage :=
  match processResult with
  | .error m => (.failure m, db, [.fetchStage])
  | .ok pd =>
    if pd.text.length < 200 then
      (.failure ("Insufficient text content extracted from " ++ url), db, [.fetchStage])
    else
      match analysisResult with
      | .error m => (.failure m, db, [.fetchStage, .analyzeStage])
      | .ok ar =>
        match savePolicy db now pd ar with
        | .error _ => (.failure "Failed to process policy", db, [.fetchStage, .analyzeStage])
        | .ok ((policyId, isNew), db') =>
          (.freshPolicy (getPolicyById db' policyId) isNew, db', [.fetchStage, .analyzeStage])

/-- `analyzePolicy(req, res)`: missing URL ⇒ 400; a record whose
`last_checked` is within the last week ⇒ the cached record, invoking
nothing; otherwise the pipeline runs. -/
def analyzePolicy (req : AnalyzeRequest) (db : DB) (now : Nat)
    (processResult : Except String PolicyData) (analysisResult : Except String Json) :
    AnalyzeResponse × DB × List Stage :=
  match req.url with
  | none => (.badRequest, db, [])
  | some url =>
    match getPolicyByUrl db url with
    | some existing =>
      if now < existing.lastChecked + oneWeekMs then (.cachedPolicy existing, db, [])
      else runPipeline url db now processResult analysisResult
    | none => runPipeline url db now processResult analysisResult

/-! # Theorems -/

/-! ## C4 / C10 — AI response parsing -/

/-- C4: `parseAIResponse` never throws and is three-phased: a response
that parses as JSON is returned parsed; otherwise, when the greedy
first-brace-to-last-brace substring can be located and parses, that
embedded object is returned; otherwise the fixed fallback object is
returned, whose score is `\x7bvalue: 0, explanation: "Analysis failed,
manual review required"\x7d` and whose `redFlags` list is the single
entry `"Analysis could not complete successfully"`. -/
theorem c4_parseAIResponse_phases (s : String) :
    (∀ v, jsonParse s = some v → parseAIResponse s = v) ∧
    (jsonParse s = none → ∀ t v, extractBraces s = some t → jsonParse t = some v →
      parseAIResponse s = v) ∧
    (jsonParse s = none → extractBraces s = none → parseAIResponse s = fallbackAnalysis) ∧
    (jsonParse s = none → (∀ t, extractBraces s = some t → jsonParse t = none) →
      parseAIResponse s = fallbackAnalysis) ∧
    Json.getField fallbackAnalysis "score" =
      some (.obj [("value", .num "0"),
        ("explanation", .str "Analysis failed, manual review required")]) ∧
    Json.getField fallbackAnalysis "redFlags" =
      some (.arr [.str "Analysis could not complete successfully"]) := by
  refine ⟨?_, ?_, ?_, ?_, rfl, rfl⟩
  · intro v h
    simp only [parseAIResponse, h]
  · intro h t v ht hv
    simp only [parseAIResponse, h, ht, hv]
  · intro h hb
    simp only [parseAIResponse, h, hb]
  · intro h hall
    cases hx : extractBraces s with
    | none => simp only [parseAIResponse, h, hx]
    | some t => simp only [parseAIResponse, h, hx, hall t hx]

/-- Witness for C4 at concrete inputs: a JSON object embedded in prose is
extracted; non-JSON garbage yields the fallback object. -/
theorem c4_parseAIResponse_phases_witness :
    parseAIResponse "Sure, here you go: \x7b\"score\": \x7b\"value\": 42\x7d\x7d Bye!" =
      .obj [("score", .obj [("value", .num "42")])] ∧
    parseAIResponse "no json here at all" = fallbackAnalysis :=
  ⟨(c4_parseAIResponse_phases
      "Sure, here you go: \x7b\"score\": \x7b\"value\": 42\x7d\x7d Bye!").2.1 rfl _ _ rfl rfl,
   (c4_parseAIResponse_phases "no json here at all").2.2.1 rfl rfl⟩

/-- C10: `parseAIResponse` performs no schema validation — any
syntactically valid JSON is returned exactly as parsed, whatever its
shape. -/
theorem c10_parseAIResponse_no_schema_validation (s : String) (v : Json)
    (h : jsonParse s = some v) : parseAIResponse s = v := by
  simp only [parseAIResponse, h]

/-- Witness for C10: a well-formed but off-schema response (no `score`,
`summary`, `redFlags`, … keys) flows through unchanged. -/
theorem c10_parseAIResponse_no_schema_validation_witness :
    parseAIResponse "\x7b\"foo\": 1\x7d" = .obj [("foo", .num "1")] ∧
    Json.getField (.obj [("foo", .num "1")]) "score" = none ∧
    Json.getField (.obj [("foo", .num "1")]) "summary" = none ∧
    Json.getField (.obj [("foo", .num "1")]) "redFlags" = none :=
  ⟨c10_parseAIResponse_no_schema_validation _ _ rfl, rfl, rfl, rfl⟩

/-! ## C8 — classifier -/

/-- C8: a URL containing one of the fixed keywords classifies `true`
regardless of the HTML (even absent); otherwise, with HTML present, the
result is exactly "title/h1 keyword, or at least 4 distinct body
phrases"; with no URL match and no HTML the result is `false`. -/
theorem c8_isProbablyPrivacyPolicy_boundary (url : String) (html : Option HtmlView) :
    (∀ i ∈ urlIndicators, strContains (jsToLower url) i = true →
      isProbablyPrivacyPolicy url html = true) ∧
    ((∀ i ∈ urlIndicators, strContains (jsToLower url) i = false) →
      ∀ v, html = some v →
        isProbablyPrivacyPolicy url html =
          (titleIndicators.any (fun i =>
              strContains (jsToLower v.titleText) i || strContains (jsToLower v.h1Text) i) ||
            decide (4 ≤ (contentKeywords.filter
              (fun k => strContains (jsToLower v.bodyText) k)).length))) ∧
    ((∀ i ∈ urlIndicators, strContains (jsToLower url) i = false) → html = none →
      isProbablyPrivacyPolicy url html = false) := by
  refine ⟨?_, ?_, ?_⟩
  · intro i hi hc
    have hany : urlIndicators.any (fun i => strContains (jsToLower url) i) = true :=
      List.any_eq_true.mpr ⟨i, hi, hc⟩
    simp only [isProbablyPrivacyPolicy, hany, if_true]
  · intro hall v hv
    have hany : urlIndicators.any (fun i => strContains (jsToLower url) i) = false :=
      List.any_eq_false.mpr (by intro i hi; simp [hall i hi])
    subst hv
    simp only [isProbablyPrivacyPolicy, hany, Bool.false_eq_true, if_false]
    cases ht : titleIndicators.any (fun i =>
        strContains (jsToLower v.titleText) i || strContains (jsToLower v.h1Text) i) <;>
      simp [ht]
  · intro hall hn
    have hany : urlIndicators.any (fun i => strContains (jsToLower url) i) = false :=
      List.any_eq_false.mpr (by intro i hi; simp [hall i hi])
    subst hn
    simp only [isProbablyPrivacyPolicy, hany, Bool.false_eq_true, if_false]

/-- Witness for C8: `privacy-policy` in the URL wins with no HTML; a
neutral URL and title with exactly 4 listed body phrases yields `true`,
with only 3 yields `false`; nothing at all yields `false`. -/
theorem c8_isProbablyPrivacyPolicy_boundary_witness :
    isProbablyPrivacyPolicy "https://shop.example.com/PRIVACY-POLICY" none = true ∧
    isProbablyPrivacyPolicy "https://shop.example.com/about"
      (some { titleText := "example shop", h1Text := "welcome",
              bodyText := "personal data your rights opt out third parties" }) = true ∧
    isProbablyPrivacyPolicy "https://shop.example.com/about"
      (some { titleText := "example shop", h1Text := "welcome",
              bodyText := "personal data your rights opt out" }) = false ∧
    isProbablyPrivacyPolicy "https://shop.example.com/about" none = false := by
  refine ⟨?_, ?_, ?_, ?_⟩
  · exact (c8_isProbablyPrivacyPolicy_boundary _ _).1 "privacy-policy" (by decide) (by decide)
  · rw [(c8_isProbablyPrivacyPolicy_boundary _ _).2.1 (by decide) _ rfl]
    decide
  · rw [(c8_isProbablyPrivacyPolicy_boundary _ _).2.1 (by decide) _ rfl]
    decide
  · exact (c8_isProbablyPrivacyPolicy_boundary _ _).2.2 (by decide) rfl

/-! ## C9 — cache error isolation -/

/-- C9 (amended): cache `get`/`set` never propagate a backend failure —
`get` yields the stored value on an in-memory hit and `null` on a miss
or on any backend error; `set` reports `false` and leaves the state
unchanged instead of throwing on a backend error.  (On the Redis
backend, values additionally round-trip through JSON serialization; see
the counterexample.) -/
theorem c9_cache_error_isolation :
    (∀ st now k v, st.redisEnabled = false →
      storeLookup st.memStore now k = some v → cmGet st now k = some v) ∧
    (∀ st now k, st.redisEnabled = false →
      storeLookup st.memStore now k = none → cmGet st now k = none) ∧
    (∀ st now k, st.redisEnabled = true → st.redisOk = false →
      cmGet st now k = none) ∧
    (∀ st now k v ttl, st.redisEnabled = true → st.redisOk = false →
      cmSet st now k v ttl = (false, st)) ∧
    (∀ st now k v ttl, (cmSet st now k v ttl).1 = false →
      (cmSet st now k v ttl).2 = st) := by
  refine ⟨?_, ?_, ?_, ?_, ?_⟩
  · intro st now k v he hl
    simp [cmGet, he, hl]
  · intro st now k he hl
    simp [cmGet, he, hl]
  · intro st now k he ho
    simp [cmGet, he, ho]
  · intro st now k v ttl he ho
    simp [cmSet, he, ho]
  · intro st now k v ttl h
    by_cases he : st.redisEnabled
    · by_cases ho : st.redisOk
      · simp [cmSet, he, ho] at h
      · simp [cmSet, he, ho]
    · simp [cmSet, he] at h

/-- Witness for C9: on the default in-memory backend a stored value is
returned as stored; with Redis enabled but erroring, `get` misses and
`set` reports `false` leaving the state unchanged. -/
theorem c9_cache_error_isolation_witness :
    cmGet { redisEnabled := false, redisOk := true, redisStore := [],
            memStore := [("k", Json.str "42", 1000)] } 5 "k" = some (.str "42") ∧
    cmGet { redisEnabled := true, redisOk := false, redisStore := [], memStore := [] }
      0 "k" = none ∧
    cmSet { redisEnabled := true, redisOk := false, redisStore := [], memStore := [] }
      0 "k" (.str "x") 10 =
      (false, { redisEnabled := true, redisOk := false, redisStore := [], memStore := [] }) :=
  ⟨c9_cache_error_isolation.1 _ 5 "k" _ rfl rfl,
   c9_cache_error_isolation.2.2.1 _ 0 "k" rfl rfl,
   c9_cache_error_isolation.2.2.2.1 _ 0 "k" _ 10 rfl rfl⟩

/-- Counterexample for C9 as frozen: with the Redis backend healthy, the
stored *string* `"42"` is returned from a hit as the *number* `42`
(`set` stores strings verbatim, `get` re-parses them as JSON), so "get
returns the stored value on a hit" fails. -/
theorem c9_cache_error_isolation_counterexample :
    cmGet (cmSet { redisEnabled := true, redisOk := true, redisStore := [], memStore := [] }
        0 "k" (.str "42") 10).2 5 "k" = some (.num "42") ∧
    Json.num "42" ≠ Json.str "42" :=
  ⟨rfl, fun h => Json.noConfusion h⟩

/-! ## Shared concrete fixtures -/

/-- An empty cache on the default in-memory backend. -/
def stEmptyMem : CacheState :=
  { redisEnabled := false, redisOk := true, redisStore := [], memStore := [] }

def pdW : PolicyData :=
  { url := "https://w.example/privacy", domain := "w.example", title := "Privacy",
    text := "body text" }

/-- A stored record for `pdW`'s URL, checked at `t = 100`. -/
def c3Row : PolicyRow :=
  { id := 1, url := "https://w.example/privacy", domain := "w.example", title := "Privacy",
    text := "old text", summary := "[]", dataCollection := "\x7b\x7d",
    dataSharing := "\x7b\x7d", retention := .str "", userRights := "[]",
    score := .num "50", scoreExplanation := .str "", redFlags := "[]",
    compliance := "\x7b\x7d", createdAt := 100, lastChecked := 100 }

/-! ## C5 — provider fallback and the mock analysis -/

/-- C5 (amended): in the multi-provider analyzer a provider failure
falls back to the other configured provider when one exists and
propagates otherwise (never a placeholder); in the single-provider
Gemini analyzer a rate-limit (429) failure degrades to the mock analysis
in *every* environment, including production, while other failures
degrade to the mock only in development and propagate otherwise. -/
theorem c5_provider_fallback_and_mock :
    (∀ st now pd m t, jsTruthyOpt (cmGet st now (analysisCacheKey pd.url)) = none →
      analyzeMulti true true "gemini" st now pd (.error m) (.ok t) =
        .ok (parseAIResponse t,
          (cmSet st now (analysisCacheKey pd.url) (parseAIResponse t) sevenDaysSeconds).2)) ∧
    (∀ st now pd m m', jsTruthyOpt (cmGet st now (analysisCacheKey pd.url)) = none →
      analyzeMulti true true "gemini" st now pd (.error m) (.error m') =
        .error ("OpenAI API error: " ++ m')) ∧
    (∀ st now pd m o, jsTruthyOpt (cmGet st now (analysisCacheKey pd.url)) = none →
      analyzeMulti true false "gemini" st now pd (.error m) o =
        .error ("Gemini API error: " ++ m)) ∧
    (∀ env st now pd m, jsTruthyOpt (cmGet st now (analysisCacheKey pd.url)) = none →
      strContains ("Gemini API error: " ++ m) "429 Too Many Requests" = true →
      analyzeGemini true env st now pd (.error m) = .ok (generateMockAnalysis pd, st)) ∧
    (∀ env st now pd m, jsTruthyOpt (cmGet st now (analysisCacheKey pd.url)) = none →
      strContains ("Gemini API error: " ++ m) "429 Too Many Requests" = false →
      env ≠ "development" →
      analyzeGemini true env st now pd (.error m) = .error ("Gemini API error: " ++ m)) ∧
    (∀ st now pd m, jsTruthyOpt (cmGet st now (analysisCacheKey pd.url)) = none →
      strContains ("Gemini API error: " ++ m) "429 Too Many Requests" = false →
      analyzeGemini true "development" st now pd (.error m) =
        .ok (generateMockAnalysis pd, st)) := by
  refine ⟨?_, ?_, ?_, ?_, ?_, ?_⟩
  · intro st now pd m t hmiss
    simp only [analyzeMulti, hmiss]
    rfl
  · intro st now pd m m' hmiss
    simp only [analyzeMulti, hmiss]
    rfl
  · intro st now pd m o hmiss
    simp only [analyzeMulti, hmiss]
    rfl
  · intro env st now pd m hmiss h429
    simp only [analyzeGemini, Bool.not_true, Bool.false_eq_true, if_false, hmiss, h429,
      if_true]
  · intro env st now pd m hmiss h429 henv
    simp only [analyzeGemini, Bool.not_true, Bool.false_eq_true, if_false, hmiss, h429,
      if_neg henv]
  · intro st now pd m hmiss h429
    simp only [analyzeGemini, Bool.not_true, Bool.false_eq_true, if_false, hmiss, h429,
      if_true, if_pos rfl]

/-- Witness for C5 at concrete inputs: a failing primary with a
configured secondary yields the secondary's analysis; a failing primary
with no secondary propagates; a non-429 failure in development yields
the mock. -/
theorem c5_provider_fallback_and_mock_witness :
    analyzeMulti true true "gemini" stEmptyMem 0 pdW
      (.error "429 Too Many Requests") (.ok "\x7b\"ok\": true\x7d") =
      .ok (.obj [("ok", .bool true)],
        { redisEnabled := false, redisOk := true, redisStore := [],
          memStore := [("policy_analysis_https://w.example/privacy",
            .obj [("ok", .bool true)], 604800000)] }) ∧
    analyzeMulti true false "gemini" stEmptyMem 0 pdW
      (.error "429 Too Many Requests") (.ok "irrelevant") =
      .error "Gemini API error: 429 Too Many Requests" ∧
    analyzeGemini true "development" stEmptyMem 0 pdW (.error "ECONNREFUSED") =
      .ok (generateMockAnalysis pdW, stEmptyMem) :=
  ⟨c5_provider_fallback_and_mock.1 stEmptyMem 0 pdW _ _ rfl,
   c5_provider_fallback_and_mock.2.2.1 stEmptyMem 0 pdW _ _ rfl,
   c5_provider_fallback_and_mock.2.2.2.2.2 stEmptyMem 0 pdW _ rfl rfl⟩

/-- Counterexample for C5 as frozen: in the single-provider analyzer a
rate-limit failure returns the synthetic mock analysis even with
`NODE_ENV = "production"` — the degradation is *not* restricted to
non-production environments (the 429 branch precedes the environment
check). -/
theorem c5_mock_in_production_counterexample :
    analyzeGemini true "production" stEmptyMem 0 pdW (.error "429 Too Many Requests") =
      .ok (generateMockAnalysis pdW, stEmptyMem) := rfl

/-! ## C6 — fetch strategy dispatch -/

/-- C6 (amended): `fetchPolicyContent` returns a truthy cached value
with no strategy invocation; a complex-site domain goes straight to the
headless browser; otherwise Axios is tried first with exactly one
Puppeteer fallback before giving up; a successfully fetched HTML is
offered to the cache with a 24-hour TTL before being returned (the
write is a no-op when the cache backend errors). -/
theorem c6_fetch_strategy_dispatch :
    (∀ st now url v a p, jsTruthyOpt (cmGet st now (htmlCacheKey url)) = some v →
      fetchPolicyContent st now url a p = (.ok v, [], st)) ∧
    (∀ st now url h a, jsTruthyOpt (cmGet st now (htmlCacheKey url)) = none →
      needsPuppeteer url = true →
      fetchPolicyContent st now url a (.ok h) =
        (.ok (.str h), [.puppeteer], (cmSet st now (htmlCacheKey url) (.str h) 86400).2)) ∧
    (∀ st now url m a, jsTruthyOpt (cmGet st now (htmlCacheKey url)) = none →
      needsPuppeteer url = true →
      fetchPolicyContent st now url a (.error m) =
        (.error ("Failed to fetch policy from " ++ url ++ ": " ++ m), [.puppeteer], st)) ∧
    (∀ st now url h p, jsTruthyOpt (cmGet st now (htmlCacheKey url)) = none →
      needsPuppeteer url = false →
      fetchPolicyContent st now url (.ok h) p =
        (.ok (.str h), [.axios], (cmSet st now (htmlCacheKey url) (.str h) 86400).2)) ∧
    (∀ st now url m h, jsTruthyOpt (cmGet st now (htmlCacheKey url)) = none →
      needsPuppeteer url = false →
      fetchPolicyContent st now url (.error m) (.ok h) =
        (.ok (.str h), [.axios, .puppeteer],
          (cmSet st now (htmlCacheKey url) (.str h) 86400).2)) ∧
    (∀ st now url m m', jsTruthyOpt (cmGet st now (htmlCacheKey url)) = none →
      needsPuppeteer url = false →
      fetchPolicyContent st now url (.error m) (.error m') =
        (.error ("Failed to fetch policy from " ++ url ++ ": " ++ m'),
          [.axios, .puppeteer], st)) := by
  refine ⟨?_, ?_, ?_, ?_, ?_, ?_⟩
  · intro st now url v a p hhit
    simp only [fetchPolicyContent, hhit]
  · intro st now url h a hmiss hnp
    simp only [fetchPolicyContent, hmiss, hnp, if_true]
  · intro st now url m a hmiss hnp
    simp only [fetchPolicyContent, hmiss, hnp, if_true]
  · intro st now url h p hmiss hnp
    simp only [fetchPolicyContent, hmiss, hnp, Bool.false_eq_true, if_false]
  · intro st now url m h hmiss hnp
    simp only [fetchPolicyContent, hmiss, hnp, Bool.false_eq_true, if_false]
  · intro st now url m m' hmiss hnp
    simp only [fetchPolicyContent, hmiss, hnp, Bool.false_eq_true, if_false]

/-- Witness for C6 at concrete inputs: a cached page is returned with no
strategy invoked; a facebook.com URL goes straight to Puppeteer; an
ordinary URL falls back from a failing Axios to Puppeteer exactly once
and the result is cached for 24 hours. -/
theorem c6_fetch_strategy_dispatch_witness :
    fetchPolicyContent
      { redisEnabled := false, redisOk := true, redisStore := [],
        memStore := [("policy_html_https://w.example/privacy", .str "<html>c</html>", 999999)] }
      5 "https://w.example/privacy" (.error "unused") (.error "unused") =
      (.ok (.str "<html>c</html>"), [],
        { redisEnabled := false, redisOk := true, redisStore := [],
          memStore := [("policy_html_https://w.example/privacy", .str "<html>c</html>", 999999)] }) ∧
    fetchPolicyContent stEmptyMem 0 "https://facebook.com/privacy"
      (.error "unused") (.ok "<html>fb</html>") =
      (.ok (.str "<html>fb</html>"), [.puppeteer],
        { redisEnabled := false, redisOk := true, redisStore := [],
          memStore := [("policy_html_https://facebook.com/privacy",
            .str "<html>fb</html>", 86400000)] }) ∧
    fetchPolicyContent stEmptyMem 0 "https://w.example/privacy"
      (.error "403 blocked") (.ok "<html>pp</html>") =
      (.ok (.str "<html>pp</html>"), [.axios, .puppeteer],
        { redisEnabled := false, redisOk := true, redisStore := [],
          memStore := [("policy_html_https://w.example/privacy",
            .str "<html>pp</html>", 86400000)] }) :=
  ⟨c6_fetch_strategy_dispatch.1 _ 5 _ _ _ _ rfl,
   c6_fetch_strategy_dispatch.2.1 stEmptyMem 0 _ _ _ rfl rfl,
   c6_fetch_strategy_dispatch.2.2.2.2.1 stEmptyMem 0 _ _ _ rfl rfl⟩

/-- Counterexample for C6 as frozen: (a) a *present* cache entry whose
value is the empty string is treated as a miss (`if (cachedData)`), so
the network is still hit although the raw-HTML key is present; (b) with
the Redis cache backend enabled but erroring, a successful fetch returns
the HTML while writing nothing to the cache (the failed `set` is
swallowed), so "every successfully fetched HTML is written to the
cache" fails. -/
theorem c6_fetch_strategy_dispatch_counterexample :
    (fetchPolicyContent
      { redisEnabled := false, redisOk := true, redisStore := [],
        memStore := [("policy_html_https://w.example/privacy", .str "", 999999)] }
      5 "https://w.example/privacy" (.ok "<html>net</html>") (.error "e")).2.1 =
      [.axios] ∧
    fetchPolicyContent
      { redisEnabled := true, redisOk := false, redisStore := [], memStore := [] }
      0 "https://w.example/privacy" (.ok "<html>net</html>") (.error "e") =
      (.ok (.str "<html>net</html>"), [.axios],
        { redisEnabled := true, redisOk := false, redisStore := [], memStore := [] }) :=
  ⟨rfl, rfl⟩

/-! ## C3 — freshness gate and `forceFresh` -/

/-- C3 (amended): a stored record whose `last_checked` is within the
7-day window is returned with `cached = true`, invoking neither the
fetcher/extractor nor the analyzer, and the store is untouched; the
controller reads only `url` from the request, so the response is
independent of `options` — `options.forceFresh` does *not* bypass the
server-side freshness check. -/
theorem c3_freshness_gate (req : AnalyzeRequest) (db : DB) (now : Nat)
    (pr : Except String PolicyData) (ar : Except String Json) :
    (∀ url p, req.url = some url →
      getPolicyByUrl db url = some p → now < p.lastChecked + oneWeekMs →
      analyzePolicy req db now pr ar = (.cachedPolicy p, db, [])) ∧
    (∀ url opts, req = { url := some url, options := opts } →
      ∀ opts', analyzePolicy req db now pr ar =
        analyzePolicy { url := some url, options := opts' } db now pr ar) := by
  constructor
  · intro url p hu hp hfresh
    simp only [analyzePolicy, hu, hp, if_pos hfresh]
  · intro url opts hreq opts'
    subst hreq
    rfl

/-- Witness for C3: a record checked at `t = 100` is served from the
store at `t = 200` with no fetch/analyze invocation. -/
theorem c3_freshness_gate_witness :
    analyzePolicy { url := some "https://w.example/privacy", options := .null }
      { policies := [c3Row], policyHistory := [], analyticsEvents := [], nextId := 2 }
      200 (.error "would fetch") (.error "would analyze") =
      (.cachedPolicy c3Row,
        { policies := [c3Row], policyHistory := [], analyticsEvents := [], nextId := 2 },
        []) :=
  (c3_freshness_gate _ _ 200 _ _).1 _ c3Row rfl rfl (by decide)

/-- Counterexample for C3 as frozen: sending
`options = \x7bforceFresh: true\x7d` does not force a re-fetch — the
fresh stored record is still returned with `cached = true` and neither
the fetcher nor the analyzer is invoked, because the controller never
reads `options`. -/
theorem c3_forceFresh_ignored_counterexample :
    analyzePolicy
      { url := some "https://w.example/privacy",
        options := .obj [("forceFresh", .bool true)] }
      { policies := [c3Row], policyHistory := [], analyticsEvents := [], nextId := 2 }
      200 (.ok pdW) (.ok (.obj [("summary", .arr [])])) =
      (.cachedPolicy c3Row,
        { policies := [c3Row], policyHistory := [], analyticsEvents := [], nextId := 2 },
        []) := rfl

/-! ## Store lemmas shared by C1 and C2 -/

theorem pickLatestAux_append (acc : Option PolicyRow) (l₁ l₂ : List PolicyRow) :
    pickLatestAux acc (l₁ ++ l₂) = pickLatestAux (pickLatestAux acc l₁) l₂ := by
  induction l₁ generalizing acc with
  | nil => rfl
  | cons r rs ih =>
    simp only [List.cons_append, pickLatestAux]
    exact ih _

theorem pickLatestAux_mem (l : List PolicyRow) (acc : Option PolicyRow) (b : PolicyRow)
    (h : pickLatestAux acc l = some b) : b ∈ l ∨ acc = some b := by
  induction l generalizing acc with
  | nil => exact Or.inr h
  | cons r rs ih =>
    rcases ih _ h with hmem | hacc
    · exact Or.inl (List.mem_cons_of_mem _ hmem)
    · cases acc with
      | none =>
        simp only [pickStep] at hacc
        cases hacc
        exact Or.inl (List.mem_cons_self _ _)
      | some b0 =>
        simp only [pickStep] at hacc
        by_cases hle : b0.createdAt ≤ r.createdAt
        · rw [if_pos hle] at hacc
          cases hacc
          exact Or.inl (List.mem_cons_self _ _)
        · rw [if_neg hle] at hacc
          exact Or.inr hacc

/-- `ORDER BY created_at DESC LIMIT 1` returns a just-appended row whose
`created_at` dominates the others. -/
theorem pickLatest_last (l : List PolicyRow) (r : PolicyRow)
    (h : ∀ b ∈ l, b.createdAt ≤ r.createdAt) : pickLatest (l ++ [r]) = some r := by
  unfold pickLatest
  rw [pickLatestAux_append]
  cases hp : pickLatestAux none l with
  | none => rfl
  | some b =>
    have hb : b ∈ l := by
      rcases pickLatestAux_mem l none b hp with hmem | habs
      · exact hmem
      · cases habs
    show pickLatestAux (pickStep (some b) r) [] = some r
    simp only [pickStep, if_pos (h b hb), pickLatestAux]

theorem pickLatestAux_map (f : PolicyRow → PolicyRow)
    (hca : ∀ r, (f r).createdAt = r.createdAt) (l : List PolicyRow)
    (acc : Option PolicyRow) :
    pickLatestAux (acc.map f) (l.map f) = (pickLatestAux acc l).map f := by
  induction l generalizing acc with
  | nil => rfl
  | cons r rs ih =>
    have hstep : pickStep (acc.map f) (f r) = (pickStep acc r).map f := by
      cases acc with
      | none => rfl
      | some b =>
        show (if (f b).createdAt ≤ (f r).createdAt then some (f r) else some (f b)) = _
        rw [hca, hca]
        by_cases hle : b.createdAt ≤ r.createdAt
        · simp only [pickStep, if_pos hle]
          rfl
        · simp only [pickStep, if_neg hle]
          rfl
    simp only [List.map_cons, pickLatestAux, hstep, ih]

/-- Looking a URL up after a row transformation that preserves `url` and
`created_at` (such as the `last_checked` bump). -/
theorem getPolicyByUrl_mapped (db₂ db : DB) (u : String) (f : PolicyRow → PolicyRow)
    (hp : db₂.policies = db.policies.map f)
    (hurl : ∀ r, (f r).url = r.url) (hca : ∀ r, (f r).createdAt = r.createdAt) :
    getPolicyByUrl db₂ u = (getPolicyByUrl db u).map f := by
  unfold getPolicyByUrl
  rw [hp]
  have hfil : (db.policies.map f).filter (fun r => r.url == u) =
      (db.policies.filter (fun r => r.url == u)).map f := by
    induction db.policies with
    | nil => rfl
    | cons r rs ih =>
      by_cases hr : (r.url == u) = true
      · simp [List.filter_cons, hurl, hr, ih]
      · simp [List.filter_cons, hurl, hr, ih]
  rw [hfil]
  exact pickLatestAux_map f hca _ none

/-- A just-inserted row for the URL is what `getPolicyByUrl` returns,
provided its `created_at` dominates the stored rows. -/
theorem getPolicyByUrl_appended (db₂ db : DB) (u : String) (row : PolicyRow)
    (hp : db₂.policies = db.policies ++ [row])
    (hurl : row.url = u) (hmax : ∀ r ∈ db.policies, r.createdAt ≤ row.createdAt) :
    getPolicyByUrl db₂ u = some row := by
  unfold getPolicyByUrl
  rw [hp, List.filter_append]
  have h1 : [row].filter (fun r => r.url == u) = [row] := by simp [hurl]
  rw [h1]
  exact pickLatest_last _ _ (fun b hb => hmax b (List.mem_of_mem_filter hb))

/-- The `savePolicy` branch for a URL with no stored record. -/
theorem savePolicy_insert_new (db : DB) (now : Nat) (pd : PolicyData) (ar : Json)
    (har : ar.isNull = false) (hex : getPolicyByUrl db pd.url = none) :
    savePolicy db now pd ar =
      .ok ((db.nextId, true),
        { db with
            policies := db.policies ++ [newPolicyRow db.nextId now pd (analysisCols ar)]
            analyticsEvents := db.analyticsEvents ++
              [("policy_created", .obj [("policyId", .num (toString db.nextId)),
                ("url", .str pd.url), ("domain", .str pd.domain),
                ("score", (analysisCols ar).score)])]
            nextId := db.nextId + 1 }) := by
  simp only [savePolicy, har, Bool.false_eq_true, if_false, hex]

/-- The `savePolicy` branch for a stored record with changed raw text:
a new version row is inserted; `policy_history` is untouched. -/
theorem savePolicy_insert_version (db : DB) (now : Nat) (pd : PolicyData) (ar : Json)
    (existing : PolicyRow) (har : ar.isNull = false)
    (hex : getPolicyByUrl db pd.url = some existing) (hch : existing.text ≠ pd.text) :
    savePolicy db now pd ar =
      .ok ((db.nextId, true),
        { db with
            policies := db.policies ++ [newPolicyRow db.nextId now pd (analysisCols ar)]
            analyticsEvents := db.analyticsEvents ++
              [("policy_updated", .obj [("policyId", .num (toString db.nextId)),
                ("url", .str pd.url), ("domain", .str pd.domain),
                ("score", (analysisCols ar).score),
                ("previousScore", existing.score),
                ("previousId", .num (toString existing.id))])]
            nextId := db.nextId + 1 }) := by
  simp only [savePolicy, har, Bool.false_eq_true, if_false, hex]
  rw [if_pos hch]

/-- The `savePolicy` branch for a stored record with unchanged raw text:
only `last_checked` is bumped. -/
theorem savePolicy_touch (db : DB) (now : Nat) (pd : PolicyData) (ar : Json)
    (existing : PolicyRow) (har : ar.isNull = false)
    (hex : getPolicyByUrl db pd.url = some existing) (hte : existing.text = pd.text) :
    savePolicy db now pd ar =
      .ok ((existing.id, false),
        { db with policies := db.policies.map fun r =>
            if r.id = existing.id then { r with lastChecked := now } else r }) := by
  simp only [savePolicy, har, Bool.false_eq_true, if_false, hex]
  rw [if_neg (not_not_intro hte)]

/-! ## C1 — versioning on changed content -/

/-- C1 (amended): when a record exists for the URL and its stored text
differs from the new text, `savePolicy` inserts a new `PolicyRecord`
version with a fresh id carrying the new analysis, returns
`isNew = true`, and leaves every prior row unmutated; *no*
`PolicyHistoryEntry` is appended — the prior version simply remains as
its own row in `policies`. -/
theorem c1_new_version_on_changed_text (db : DB) (now : Nat) (pd : PolicyData)
    (ar : Json) (existing : PolicyRow)
    (har : ar.isNull = false)
    (hex : getPolicyByUrl db pd.url = some existing)
    (hch : existing.text ≠ pd.text)
    (hid : ∀ r ∈ db.policies, r.id < db.nextId) :
    (∃ db', savePolicy db now pd ar = .ok ((db.nextId, true), db') ∧
        db'.policies = db.policies ++ [newPolicyRow db.nextId now pd (analysisCols ar)] ∧
        db'.policyHistory = db.policyHistory ∧
        db'.nextId = db.nextId + 1) ∧
    (newPolicyRow db.nextId now pd (analysisCols ar)).text = pd.text ∧
    (newPolicyRow db.nextId now pd (analysisCols ar)).id = db.nextId ∧
    ∀ r ∈ db.policies, r.id ≠ db.nextId := by
  exact ⟨⟨_, savePolicy_insert_version db now pd ar existing har hex hch, rfl, rfl, rfl⟩,
    rfl, rfl, fun r hr => Nat.ne_of_lt (hid r hr)⟩

def c1Db : DB :=
  { policies := [c3Row], policyHistory := [], analyticsEvents := [], nextId := 2 }

def c1Ar : Json :=
  .obj [("summary", .arr [.str "s1"]),
    ("score", .obj [("value", .num "70"), ("explanation", .str "fine")]),
    ("redFlags", .arr [.str "f1"])]

/-- Witness for C1 at a concrete store: re-analyzing the URL with
changed text yields id 2, `isNew = true`, two record rows, an unchanged
(empty) history table, and a bumped id counter. -/
theorem c1_new_version_on_changed_text_witness :
    (savePolicy c1Db 1000 pdW c1Ar).toOption.map
      (fun x => (x.1, x.2.policies.length, x.2.policyHistory.length, x.2.nextId)) =
      some ((2, true), 2, 0, 3) := by
  obtain ⟨⟨db', heq, hpol, hhist, hnext⟩, -, -, -⟩ :=
    c1_new_version_on_changed_text c1Db 1000 pdW c1Ar c3Row rfl rfl (by decide) (by decide)
  rw [heq]
  show some ((c1Db.nextId, true), db'.policies.length, db'.policyHistory.length, db'.nextId)
    = some ((2, true), 2, 0, 3)
  rw [hpol, hhist, hnext]
  rfl

/-- Counterexample for C1 as frozen: the same concrete run leaves
`policy_history` empty — it does *not* append exactly one
`PolicyHistoryEntry` with the prior record's content (the prior version
instead stays behind as its own unmodified row). -/
theorem c1_no_history_entry_counterexample :
    (savePolicy c1Db 1000 pdW c1Ar).toOption.map
      (fun x => (x.1.1, x.1.2, x.2.policyHistory, x.2.policies.take 1)) =
      some (2, true, ([] : List HistoryRow), [c3Row]) := rfl

/-! ## C2 — idempotence on unchanged content -/

/-- C2: when a record exists for the URL with unchanged raw text,
`savePolicy` updates only that record's `last_checked`, returns
`isNew = false` and creates no history entry; consequently a second call
for the same URL with the same text — whatever the first call did — is
idempotent: it yields `isNew = false` and only bumps `last_checked` of
the row the first call wrote. -/
theorem c2_unchanged_text_idempotent :
    (∀ db now pd ar existing, Json.isNull ar = false →
      getPolicyByUrl db pd.url = some existing → existing.text = pd.text →
      savePolicy db now pd ar =
        .ok ((existing.id, false),
          { db with policies := db.policies.map fun r =>
              if r.id = existing.id then { r with lastChecked := now } else r })) ∧
    (∀ db now₁ now₂ pd ar₁ ar₂ res₁ db₁, Json.isNull ar₂ = false →
      (∀ r ∈ db.policies, r.createdAt ≤ now₁) →
      savePolicy db now₁ pd ar₁ = .ok (res₁, db₁) →
      savePolicy db₁ now₂ pd ar₂ =
        .ok ((res₁.1, false),
          { db₁ with policies := db₁.policies.map fun r =>
              if r.id = res₁.1 then { r with lastChecked := now₂ } else r })) := by
  constructor
  · exact fun db now pd ar existing har hex hte => savePolicy_touch db now pd ar existing har hex hte
  · intro db now₁ now₂ pd ar₁ ar₂ res₁ db₁ har₂ hcre h₁
    have har₁ : ar₁.isNull = false := by
      cases h : ar₁.isNull
      · rfl
      · exfalso
        rw [savePolicy, if_pos h] at h₁
        exact Except.noConfusion h₁
    cases hex : getPolicyByUrl db pd.url with
    | none =>
      rw [savePolicy_insert_new db now₁ pd ar₁ har₁ hex] at h₁
      have hpair := Except.ok.inj h₁
      injection hpair with hres hdb
      subst hres
      have hp : db₁.policies =
          db.policies ++ [newPolicyRow db.nextId now₁ pd (analysisCols ar₁)] := by
        rw [← hdb]
      have hget := getPolicyByUrl_appended db₁ db pd.url _ hp rfl hcre
      exact savePolicy_touch db₁ now₂ pd ar₂ _ har₂ hget rfl
    | some existing =>
      by_cases hch : existing.text = pd.text
      · rw [savePolicy_touch db now₁ pd ar₁ existing har₁ hex hch] at h₁
        have hpair := Except.ok.inj h₁
        injection hpair with hres hdb
        subst hres
        have hp : db₁.policies = db.policies.map
            (fun r => if r.id = existing.id then { r with lastChecked := now₁ } else r) := by
          rw [← hdb]
        have hfun_url : ∀ r : PolicyRow,
            ((fun r => if r.id = existing.id then { r with lastChecked := now₁ } else r) r).url
              = r.url := by
          intro r
          by_cases hid : r.id = existing.id <;> simp [hid]
        have hfun_ca : ∀ r : PolicyRow,
            ((fun r => if r.id = existing.id then { r with lastChecked := now₁ } else r) r).createdAt
              = r.createdAt := by
          intro r
          by_cases hid : r.id = existing.id <;> simp [hid]
        have hget : getPolicyByUrl db₁ pd.url =
            some { existing with lastChecked := now₁ } := by
          rw [getPolicyByUrl_mapped db₁ db pd.url _ hp hfun_url hfun_ca, hex]
          simp
        exact savePolicy_touch db₁ now₂ pd ar₂ { existing with lastChecked := now₁ }
          har₂ hget hch
      · rw [savePolicy_insert_version db now₁ pd ar₁ existing har₁ hex hch] at h₁
        have hpair := Except.ok.inj h₁
        injection hpair with hres hdb
        subst hres
        have hp : db₁.policies =
            db.policies ++ [newPolicyRow db.nextId now₁ pd (analysisCols ar₁)] := by
          rw [← hdb]
        have hget := getPolicyByUrl_appended db₁ db pd.url _ hp rfl hcre
        exact savePolicy_touch db₁ now₂ pd ar₂ _ har₂ hget rfl

/-- The policy data whose text matches the stored `c3Row`. -/
def pdOld : PolicyData :=
  { url := "https://w.example/privacy", domain := "w.example", title := "Privacy",
    text := "old text" }

/-- Witness for C2 at a concrete store: saving unchanged text bumps only
`last_checked` (`isNew = false`); doing it again right after the first
call is idempotent. -/
theorem c2_unchanged_text_idempotent_witness :
    savePolicy c1Db 555 pdOld c1Ar =
      .ok ((1, false),
        { c1Db with policies := c1Db.policies.map fun r =>
            if r.id = 1 then { r with lastChecked := 555 } else r }) ∧
    savePolicy
      { policies := [{ c3Row with lastChecked := 555 }], policyHistory := [],
        analyticsEvents := [], nextId := 2 } 666 pdOld c1Ar =
      .ok ((1, false),
        { policies := [{ c3Row with lastChecked := 666 }], policyHistory := [],
          analyticsEvents := [], nextId := 2 }) := by
  constructor
  · exact c2_unchanged_text_idempotent.1 c1Db 555 pdOld c1Ar c3Row rfl rfl rfl
  · have h := c2_unchanged_text_idempotent.2 c1Db 555 666 pdOld c1Ar c1Ar (1, false)
      { c1Db with policies := c1Db.policies.map fun r =>
          if r.id = 1 then { r with lastChecked := 555 } else r }
      rfl (by decide)
      (c2_unchanged_text_idempotent.1 c1Db 555 pdOld c1Ar c3Row rfl rfl rfl)
    exact h.trans (by rfl)

/-! ## C7 — content extraction -/

theorem scanStep_skip (b : String × Nat) (e : String)
    (h : jsWordCount (jsTrim e) < 50) : scanStep b e = b := by
  simp only [scanStep]
  rw [if_pos h]

theorem scanStep_scored (b : String × Nat) (e : String)
    (h : 50 ≤ jsWordCount (jsTrim e)) :
    scanStep b e =
      if b.2 < elemScore17 (jsTrim e) then (jsTrim e, elemScore17 (jsTrim e)) else b := by
  simp only [scanStep]
  rw [if_neg (Nat.not_lt.mpr h)]

theorem scanStep_snd_le (b : String × Nat) (e : String) : b.2 ≤ (scanStep b e).2 := by
  by_cases h1 : jsWordCount (jsTrim e) < 50
  · rw [scanStep_skip b e h1]
  · rw [scanStep_scored b e (Nat.le_of_not_lt h1)]
    by_cases h2 : b.2 < elemScore17 (jsTrim e)
    · rw [if_pos h2]
      exact Nat.le_of_lt h2
    · rw [if_neg h2]

theorem scanElems_snd_le (b : String × Nat) (elems : List String) :
    b.2 ≤ (scanElems b elems).2 := by
  induction elems generalizing b with
  | nil => exact Nat.le_refl _
  | cons e es ih => exact Nat.le_trans (scanStep_snd_le b e) (ih (scanStep b e))

theorem scanElems_le_of_mem (b : String × Nat) (elems : List String) (e : String)
    (he : e ∈ elems) (hw : 50 ≤ jsWordCount (jsTrim e)) :
    elemScore17 (jsTrim e) ≤ (scanElems b elems).2 := by
  revert he
  induction elems generalizing b with
  | nil =>
    intro he
    exact absurd he (List.not_mem_nil _)
  | cons x xs ih =>
    intro he
    rcases List.mem_cons.mp he with heq | hmem
    · subst heq
      have h1 : elemScore17 (jsTrim e) ≤ (scanStep b e).2 := by
        rw [scanStep_scored b e hw]
        by_cases h2 : b.2 < elemScore17 (jsTrim e)
        · rw [if_pos h2]
        · rw [if_neg h2]
          exact Nat.le_of_not_lt h2
      exact Nat.le_trans h1 (scanElems_snd_le (scanStep b e) xs)
    · exact ih (scanStep b x) hmem

theorem scanSelectors_early_stop (doc : PageDoc) (sel : String) (rest : List String)
    (b : String × Nat) (h : 17000 < (scanElems b (doc.select sel)).2) :
    scanSelectors doc (sel :: rest) b = scanElems b (doc.select sel) := by
  simp only [scanSelectors]
  rw [if_pos h]

/-- C7 (amended): the extraction pipeline of `extractTextFromHtml` —
each selector-matched element of at least 50 words is scored
`wordCount * (1 + 2 * termsFound/17)` (computed exactly, scaled by 17)
and the highest-scoring candidate is kept; scanning stops at a selector
boundary once the best score exceeds 1000; when the best score is below
500 the paragraph concatenation is adopted *only if longer than the best
candidate*; when the chosen content is still under 500 characters the
body text is used; the output is whitespace-normalized and trimmed. -/
theorem c7_extraction_pipeline (doc : PageDoc) :
    (∀ b e, jsWordCount (jsTrim e) < 50 → scanStep b e = b) ∧
    (∀ b e, 50 ≤ jsWordCount (jsTrim e) →
      scanStep b e =
        if b.2 < elemScore17 (jsTrim e) then (jsTrim e, elemScore17 (jsTrim e))
        else b) ∧
    (∀ c, (elemScore17 c : ℚ) / 17 =
      (jsWordCount c : ℚ) *
        (1 + 2 * ((privacyTermsFound c : ℚ) / (privacyTerms.length : ℚ)))) ∧
    (∀ n : Nat, (1000 : ℚ) < (n : ℚ) / 17 ↔ 17000 < n) ∧
    (∀ n : Nat, (n : ℚ) / 17 < (500 : ℚ) ↔ n < 8500) ∧
    (∀ b elems, b.2 ≤ (scanElems b elems).2) ∧
    (∀ b elems e, e ∈ elems → 50 ≤ jsWordCount (jsTrim e) →
      elemScore17 (jsTrim e) ≤ (scanElems b elems).2) ∧
    (∀ sel rest b, 17000 < (scanElems b (doc.select sel)).2 →
      scanSelectors doc (sel :: rest) b = scanElems b (doc.select sel)) ∧
    (extractTextFromHtml doc =
      jsNormalizeWs
        (let best := scanSelectors doc commonSelectors ("", 0)
         let afterTier1 :=
           if best.2 < 8500 then
             if best.1.length < (paragraphConcat doc).length then paragraphConcat doc
             else best.1
           else best.1
         if afterTier1.length < 500 then doc.bodyText else afterTier1)) := by
  refine ⟨scanStep_skip, scanStep_scored, ?_, ?_, ?_, scanElems_snd_le,
    scanElems_le_of_mem, scanSelectors_early_stop doc, rfl⟩
  · intro c
    have hl : (privacyTerms.length : ℚ) = 17 := by norm_num [privacyTerms]
    rw [hl]
    unfold elemScore17
    push_cast
    field_simp
  · intro n
    rw [lt_div_iff₀ (by norm_num : (0 : ℚ) < 17)]
    norm_cast
  · intro n
    rw [div_lt_iff₀ (by norm_num : (0 : ℚ) < 17)]
    norm_cast

/-- A 60-word, 539-character candidate with no privacy terms: its score
is 60 (scaled: 1020), under the medium threshold, while its text is over
500 characters. -/
def c7W60 : String := String.intercalate " " (List.replicate 60 "zzzzzzzz")

/-- A document whose only selector hit is `c7W60` under `main`, whose
only paragraph is 30 characters long, and whose body text is `BODY`. -/
def c7Doc : PageDoc :=
  { select := fun s =>
      if s = "main" then [c7W60]
      else if s = "p" then ["yyyyyyyyyyyyyyyyyyyyyyyyyyyyyy"]
      else []
    bodyText := "BODY" }

def c7Fifty : String := String.intercalate " " (List.replicate 50 "qq")

/-- Witness for C7 at concrete inputs: an under-50-word candidate is
skipped; a 50-word candidate with no privacy terms scores 50 (scaled
850) and replaces the empty best; a best already over the
high-confidence threshold stops the selector scan. -/
theorem c7_extraction_pipeline_witness :
    scanStep ("", 0) "tiny words" = ("", 0) ∧
    scanStep ("", 0) c7Fifty = (c7Fifty, 850) ∧
    scanSelectors c7Doc ("nosuch" :: ["p"]) ("", 20400) = ("", 20400) := by
  refine ⟨?_, ?_, ?_⟩
  · exact (c7_extraction_pipeline c7Doc).1 ("", 0) "tiny words" (by decide)
  · rw [(c7_extraction_pipeline c7Doc).2.1 ("", 0) c7Fifty (by decide)]
    decide
  · rw [(c7_extraction_pipeline c7Doc).2.2.2.2.2.2.2.1 "nosuch" ["p"] ("", 20400)
      (by decide)]
    decide

/-- Counterexample for C7 as frozen: on `c7Doc` the best candidate
scores 60 (< 500), so the claim's tier-1 step would adopt the paragraph
concatenation (32 chars) and then — being under 500 chars — fall through
to the body text `BODY`; the code instead keeps the longer 539-character
candidate and returns it, skipping both fallbacks.  The two disagree. -/
theorem c7_tier1_replacement_counterexample :
    extractTextFromHtml c7Doc = c7W60 ∧
    extractTextClaimed c7Doc = "BODY" ∧
    c7W60 ≠ "BODY" :=
  ⟨by decide, by decide, by decide⟩

end SPPR
